import Mathlib

/-!
Verification of the vector-conversion-helper repository: a shallow embedding
of the job orchestration pipeline (`src/workers/processing.py`), the file
validators (`src/utils/validation.py`), the error taxonomy
(`src/utils/errors.py`), the preprocessing service
(`src/services/image_processing.py`) and the vectorization service
(`src/services/vectorization.py`), together with theorems settling the
spec's claims about them.

Byte buffers are modelled as `List Nat` (one entry per byte).  External
collaborators (PIL, rembg, potrace, cairosvg, the filesystem) are modelled
as environment records describing the outcome of each call, exactly at the
granularity at which the Python code branches on those outcomes.
-/

namespace VectorHelper

/-! ## utils/validation.py -/

/-- `MAX_FILE_SIZE = 10 * 1024 * 1024` (validation.py line 12). -/
def MAX_FILE_SIZE : Nat := 10 * 1024 * 1024

/-- JPEG magic bytes `FF D8 FF` (validation.py line 18). -/
def MAGIC_JPEG : List Nat := [0xff, 0xd8, 0xff]

/-- PNG magic bytes `89 50 4E 47 0D 0A 1A 0A` (validation.py line 21). -/
def MAGIC_PNG : List Nat := [0x89, 0x50, 0x4e, 0x47, 0x0d, 0x0a, 0x1a, 0x0a]

/-- The four bytes of `ftyp`. -/
def FTYP : List Nat := [0x66, 0x74, 0x79, 0x70]

/-- The HEIC entries of `MAGIC_BYTES`: `ftypheic`, `ftypmif1`, `ftypheix`
(validation.py lines 26-28). -/
def HEIC_MAGICS : List (List Nat) :=
  [FTYP ++ [0x68, 0x65, 0x69, 0x63],
   FTYP ++ [0x6d, 0x69, 0x66, 0x31],
   FTYP ++ [0x68, 0x65, 0x69, 0x78]]

/-- `heic_brands`: `heic`, `heix`, `hevc`, `hevx`, `mif1`, `msf1`
(validation.py line 65). -/
def HEIC_BRANDS : List (List Nat) :=
  [[0x68, 0x65, 0x69, 0x63], [0x68, 0x65, 0x69, 0x78],
   [0x68, 0x65, 0x76, 0x63], [0x68, 0x65, 0x76, 0x78],
   [0x6d, 0x69, 0x66, 0x31], [0x6d, 0x73, 0x66, 0x31]]

/-- Python's substring test `needle in haystack` on byte strings: some
suffix of the haystack starts with the needle. -/
def bytesContains (haystack needle : List Nat) : Bool :=
  (List.range (haystack.length + 1)).any
    (fun i => needle.isPrefixOf (haystack.drop i))

/-- `validate_file_type(content)` (validation.py lines 32-72).
Returns the detected MIME type, or `.error msg` for the Python
`raise ValidationError(msg)`.  The translation follows the source line by
line: the length guard, the loop over `MAGIC_BYTES` restricted to the JPEG
and PNG entries (`content.startswith(magic)`), the loop over the `ftyp`
entries tested by substring (`magic in ftyp_section`) against
`content[4:12]`, and the final `content[4:8]` / brand-list check. -/
def validate_file_type (content : List Nat) : Except String String :=
  if content.length < 12 then
    .error "File too small to identify type"
  else if MAGIC_JPEG.isPrefixOf content then
    .ok "image/jpeg"
  else if MAGIC_PNG.isPrefixOf content then
    .ok "image/png"
  else
    let ftyp_section := (content.drop 4).take 8
    if HEIC_MAGICS.any (fun magic => bytesContains ftyp_section magic) then
      .ok "image/heic"
    else if (content.drop 4).take 4 = FTYP ∧
        ((content.drop 8).take 4) ∈ HEIC_BRANDS then
      .ok "image/heic"
    else
      .error "Unsupported file type. Please upload a JPG, PNG, or HEIC image."

/-- `validate_file_size(content, max_size)` (validation.py lines 75-101):
error when `size > max_size`, then error when `size == 0`, else the size. -/
def validate_file_size (content : List Nat) (max_size : Nat) :
    Except String Nat :=
  let size := content.length
  if size > max_size then
    .error "File too large."
  else if size = 0 then
    .error "File is empty."
  else
    .ok size

/-- The JPEG signature test: the buffer starts with `FF D8 FF`. -/
def isJpegSig (content : List Nat) : Prop := MAGIC_JPEG.isPrefixOf content

/-- The PNG signature test: the buffer starts with the 8-byte PNG magic. -/
def isPngSig (content : List Nat) : Prop := MAGIC_PNG.isPrefixOf content

/-- The HEIC signature test: `ftyp` at offset 4 followed by a known brand. -/
def isHeicSig (content : List Nat) : Prop :=
  (content.drop 4).take 4 = FTYP ∧ (content.drop 8).take 4 ∈ HEIC_BRANDS

instance (content : List Nat) : Decidable (isJpegSig content) := by
  unfold isJpegSig; infer_instance

instance (content : List Nat) : Decidable (isPngSig content) := by
  unfold isPngSig; infer_instance

instance (content : List Nat) : Decidable (isHeicSig content) := by
  unfold isHeicSig; infer_instance

lemma isPrefixOf_length_le :
    ∀ a b : List Nat, a.isPrefixOf b = true → a.length ≤ b.length
  | [], _, _ => by simp
  | _ :: _, [], h => by simp [List.isPrefixOf] at h
  | x :: xs, y :: ys, h => by
    simp only [List.isPrefixOf, Bool.and_eq_true] at h
    have := isPrefixOf_length_le xs ys h.2
    simp only [List.length_cons]
    omega

lemma isPrefixOf_eq_of_length :
    ∀ a b : List Nat, a.isPrefixOf b = true → a.length = b.length → a = b
  | [], [], _, _ => rfl
  | [], _ :: _, _, hl => by simp at hl
  | _ :: _, [], h, _ => by simp [List.isPrefixOf] at h
  | x :: xs, y :: ys, h, hl => by
    simp only [List.isPrefixOf, Bool.and_eq_true, beq_iff_eq] at h
    simp only [List.length_cons, Nat.add_right_cancel_iff] at hl
    rw [h.1, isPrefixOf_eq_of_length xs ys h.2 hl]

/-- A needle of the same length as the haystack is a substring exactly when
the two are equal; this collapses the `magic in ftyp_section` test of the
Python code (both operands have length 8). -/
lemma bytesContains_len_eq {s m : List Nat}
    (hm : m.length = s.length) :
    bytesContains s m = true ↔ m = s := by
  constructor
  · intro h
    rw [bytesContains, List.any_eq_true] at h
    obtain ⟨i, _, hpre⟩ := h
    have hle := isPrefixOf_length_le m (s.drop i) hpre
    rw [List.length_drop] at hle
    have hi : i = 0 ∨ s.length = 0 := by omega
    rcases hi with hi | hi
    · subst hi
      rw [List.drop_zero] at hpre
      exact isPrefixOf_eq_of_length m s hpre hm
    · have : m = [] := List.length_eq_zero.mp (by omega)
      have : s = [] := List.length_eq_zero.mp hi
      simp_all
  · intro h
    subst h
    rw [bytesContains, List.any_eq_true]
    refine ⟨0, ?_, ?_⟩
    · simp
    · rw [List.drop_zero]
      induction m with
      | nil => rfl
      | cons x xs ih => simp [List.isPrefixOf, ih]

lemma heic_magic_length : ∀ m ∈ HEIC_MAGICS, m.length = 8 := by
  intro m hm
  simp only [HEIC_MAGICS, FTYP, List.mem_cons, List.not_mem_nil,
    or_false] at hm
  rcases hm with h | h | h <;> subst h <;> rfl

/-- For a buffer of length ≥ 12 the `magic in content[4:12]` loop succeeds
iff `content[4:8] = ftyp` and the brand bytes are one of heic/mif1/heix. -/
lemma heic_loop_characterization (content : List Nat)
    (h : 12 ≤ content.length) :
    (HEIC_MAGICS.any
        (fun magic => bytesContains ((content.drop 4).take 8) magic)
      = true) ↔
    ((content.drop 4).take 4 = FTYP ∧
      ((content.drop 8).take 4 = [0x68, 0x65, 0x69, 0x63] ∨
       (content.drop 8).take 4 = [0x6d, 0x69, 0x66, 0x31] ∨
       (content.drop 8).take 4 = [0x68, 0x65, 0x69, 0x78])) := by
  have hsec : ((content.drop 4).take 8).length = 8 := by
    simp only [List.length_take, List.length_drop]
    omega
  have hsplit : (content.drop 4).take 8 =
      (content.drop 4).take 4 ++ (content.drop 8).take 4 := by
    have h44 : (8 : Nat) = 4 + 4 := rfl
    rw [h44, List.take_add, List.drop_drop]
  have hlen4 : ((content.drop 4).take 4).length = 4 := by
    simp only [List.length_take, List.length_drop]
    omega
  constructor
  · intro hany
    rw [List.any_eq_true] at hany
    obtain ⟨m, hm, hinf⟩ := hany
    rw [bytesContains_len_eq (by rw [heic_magic_length m hm, hsec])] at hinf
    subst hinf
    simp only [HEIC_MAGICS, List.mem_cons, List.not_mem_nil, or_false] at hm
    rcases hm with h' | h' | h' <;>
    · rw [hsplit] at h'
      obtain ⟨h4, h8⟩ := List.append_inj h' (by rw [hlen4]; rfl)
      refine ⟨h4, ?_⟩
      first
      | exact Or.inl h8
      | exact Or.inr (Or.inl h8)
      | exact Or.inr (Or.inr h8)
  · rintro ⟨hftyp, hbrand⟩
    rw [List.any_eq_true]
    rcases hbrand with hb | hb | hb
    · refine ⟨FTYP ++ [0x68, 0x65, 0x69, 0x63],
        by simp [HEIC_MAGICS], ?_⟩
      rw [bytesContains_len_eq (by rw [hsec]; rfl), hsplit, hftyp, hb]
    · refine ⟨FTYP ++ [0x6d, 0x69, 0x66, 0x31],
        by simp [HEIC_MAGICS], ?_⟩
      rw [bytesContains_len_eq (by rw [hsec]; rfl), hsplit, hftyp, hb]
    · refine ⟨FTYP ++ [0x68, 0x65, 0x69, 0x78],
        by simp [HEIC_MAGICS], ?_⟩
      rw [bytesContains_len_eq (by rw [hsec]; rfl), hsplit, hftyp, hb]

/-- A buffer starting with the PNG signature cannot also start with the
JPEG signature (the first bytes differ). -/
lemma png_not_jpeg {c : List Nat} (h : isPngSig c) : ¬ isJpegSig c := by
  cases c with
  | nil =>
    simp [isPngSig, MAGIC_PNG, List.isPrefixOf] at h
  | cons x xs =>
    simp only [isPngSig, isJpegSig, MAGIC_PNG, MAGIC_JPEG,
      List.isPrefixOf, Bool.and_eq_true, beq_iff_eq] at h ⊢
    intro hc
    omega

lemma take_of_isPrefixOf :
    ∀ a c : List Nat, a.isPrefixOf c = true → c.take a.length = a
  | [], _, _ => by simp
  | _ :: _, [], h => by simp [List.isPrefixOf] at h
  | x :: xs, y :: ys, h => by
    simp only [List.isPrefixOf, Bool.and_eq_true, beq_iff_eq] at h
    simp [take_of_isPrefixOf xs ys h.2, h.1]

/-- A buffer starting with the PNG signature cannot satisfy the HEIC test:
its bytes at offsets 4-7 are `0D 0A 1A 0A`, not `ftyp`. -/
lemma png_not_heic {c : List Nat} (h : isPngSig c) : ¬ isHeicSig c := by
  rintro ⟨hftyp, -⟩
  have ht := take_of_isPrefixOf MAGIC_PNG c h
  have h2 := congrArg (List.drop 4) ht
  rw [show MAGIC_PNG.length = 8 from rfl, List.drop_take] at h2
  rw [hftyp] at h2
  simp [FTYP, MAGIC_PNG] at h2

/-- C5: for every byte buffer of at least the minimum identification length
(12 bytes, the offset past the HEIC brand) starting with a JPEG, PNG, or
HEIC signature (`ftyp` at offset 4 followed by a known brand),
`validate_file_type` returns the correct MIME type; for every buffer not
matching any signature, or shorter than that minimum length, it returns
Unknown (raises `ValidationError`, modelled as `.error`).  On the one
theoretically overlapping pair — a buffer satisfying both the JPEG and the
HEIC condition — the JPEG check comes first in the source, whence the
`¬ isJpegSig` side condition on the HEIC clause. -/
theorem validate_file_type_spec (content : List Nat) :
    (content.length < 12 →
      validate_file_type content = .error "File too small to identify type")
    ∧ (12 ≤ content.length →
      (isJpegSig content → validate_file_type content = .ok "image/jpeg")
      ∧ (isPngSig content → validate_file_type content = .ok "image/png")
      ∧ (isHeicSig content → ¬ isJpegSig content →
          validate_file_type content = .ok "image/heic")
      ∧ (¬ isJpegSig content → ¬ isPngSig content → ¬ isHeicSig content →
          ∃ e, validate_file_type content = .error e)) := by
  constructor
  · intro hlt
    unfold validate_file_type
    rw [if_pos hlt]
  · intro hge
    have h12 : ¬ content.length < 12 := by omega
    refine ⟨?_, ?_, ?_, ?_⟩
    · intro hj
      unfold validate_file_type
      rw [if_neg h12,
        if_pos (show MAGIC_JPEG.isPrefixOf content = true from hj)]
    · intro hp
      have hj := png_not_jpeg hp
      unfold validate_file_type
      rw [if_neg h12,
        if_neg (show ¬ MAGIC_JPEG.isPrefixOf content = true from hj),
        if_pos (show MAGIC_PNG.isPrefixOf content = true from hp)]
    · intro hh hj
      have hp : ¬ isPngSig content := fun hp => png_not_heic hp hh
      unfold validate_file_type
      rw [if_neg h12,
        if_neg (show ¬ MAGIC_JPEG.isPrefixOf content = true from hj),
        if_neg (show ¬ MAGIC_PNG.isPrefixOf content = true from hp)]
      by_cases hloop : (HEIC_MAGICS.any
          (fun magic => bytesContains ((content.drop 4).take 8) magic))
          = true
      · simp only [hloop, if_true]
      · simp only [hloop, Bool.false_eq_true, if_false]
        obtain ⟨hh1, hh2⟩ := hh
        rw [if_pos ⟨hh1, hh2⟩]
    · intro hj hp hh
      unfold validate_file_type
      rw [if_neg h12,
        if_neg (show ¬ MAGIC_JPEG.isPrefixOf content = true from hj),
        if_neg (show ¬ MAGIC_PNG.isPrefixOf content = true from hp)]
      have hloop : ¬ (HEIC_MAGICS.any
          (fun magic => bytesContains ((content.drop 4).take 8) magic))
          = true := by
        intro hl
        obtain ⟨hftyp, hbrand⟩ :=
          (heic_loop_characterization content hge).mp hl
        refine hh ⟨hftyp, ?_⟩
        rcases hbrand with hb | hb | hb <;> rw [hb] <;> simp [HEIC_BRANDS]
      simp only [hloop, Bool.false_eq_true, if_false]
      rw [if_neg (show ¬ ((content.drop 4).take 4 = FTYP ∧
        (content.drop 8).take 4 ∈ HEIC_BRANDS) from hh)]
      exact ⟨_, rfl⟩

/-- Witness for C5: a 12-byte buffer starting with the JPEG signature is
recognized as `image/jpeg`. -/
theorem validate_file_type_spec_witness :
    validate_file_type [0xff, 0xd8, 0xff, 0, 0, 0, 0, 0, 0, 0, 0, 0]
      = .ok "image/jpeg" :=
  ((validate_file_type_spec
      [0xff, 0xd8, 0xff, 0, 0, 0, 0, 0, 0, 0, 0, 0]).2
    (by decide)).1 (by decide)

/-- C6: `validate_file_size` fails exactly when the buffer is empty or
longer than the configured maximum; a non-empty buffer within the bound
passes, returning its size; in particular a buffer of exactly `max_size`
bytes (for a positive bound) passes. -/
theorem validate_file_size_spec (content : List Nat) (max_size : Nat) :
    ((∃ e, validate_file_size content max_size = .error e) ↔
      (content.length = 0 ∨ max_size < content.length))
    ∧ (content.length ≠ 0 → content.length ≤ max_size →
        validate_file_size content max_size = .ok content.length)
    ∧ (content.length = max_size → 0 < max_size →
        validate_file_size content max_size = .ok max_size) := by
  unfold validate_file_size
  refine ⟨⟨?_, ?_⟩, ?_, ?_⟩
  · rintro ⟨e, he⟩
    by_contra hcon
    push_neg at hcon
    rw [if_neg (by omega), if_neg (by omega)] at he
    exact Except.noConfusion he
  · intro hcase
    rcases hcase with h0 | hbig
    · by_cases hbig : content.length > max_size
      · exact ⟨_, by rw [if_pos hbig]⟩
      · exact ⟨_, by rw [if_neg hbig, if_pos h0]⟩
    · exact ⟨_, by rw [if_pos hbig]⟩
  · intro h0 hle
    rw [if_neg (by omega), if_neg h0]
  · intro heq hpos
    rw [if_neg (by omega), if_neg (by omega), heq]

/-- Witness for C6: a 3-byte buffer against a 3-byte maximum passes
(the exact-boundary case) and returns its size. -/
theorem validate_file_size_spec_witness :
    validate_file_size [1, 2, 3] 3 = .ok 3 :=
  (validate_file_size_spec [1, 2, 3] 3).2.2 (by decide) (by decide)

/-! ## services/vectorization.py

`VectorizationService.vectorize` drives three external calls: potrace
(via `subprocess.run`) and two cairosvg transcodes.  Each call's outcome is
an environment field; the file set of the job's output directory is
tracked explicitly as the list of file names the call has produced. -/

/-- The `timeout=30` argument passed to `subprocess.run` in `_run_potrace`
(vectorization.py line 134). -/
def POTRACE_TIMEOUT : Nat := 30

/-- Outcome of `subprocess.run(cmd, ..., timeout=t)`: the process timed
out (`subprocess.TimeoutExpired`), the executable was missing
(`FileNotFoundError`), or it finished with a return code and stderr. -/
inductive RunOutcome where
  | timeoutExpired : RunOutcome
  | fileNotFound : RunOutcome
  | done (returncode : Int) (stderr : String) : RunOutcome
deriving DecidableEq

/-- Outcome of a cairosvg transcode call: the call raised, or it returned
(with or without having produced the output file). -/
inductive TranscodeOutcome where
  | raised (msg : String) : TranscodeOutcome
  | ran (created : Bool) : TranscodeOutcome
deriving DecidableEq

/-- Environment of one `vectorize` call: the outcome of each external
operation it performs.  `potraceRun` is a function of the timeout budget
handed to `subprocess.run`, so the 30-second budget of the source is
visible in the model. -/
structure VEnv where
  /-- Outcome of `_convert_to_bmp` (PIL open/convert/save); `.ok` means
  the temporary `temp_input.bmp` file was written. -/
  bmpConvert : Except String Unit
  /-- Outcome of the potrace subprocess as a function of the timeout. -/
  potraceRun : Nat → RunOutcome
  /-- Whether `output.svg` exists after the potrace call returns. -/
  svgCreated : Bool
  /-- Outcome of `cairosvg.svg2ps`. -/
  epsConvert : TranscodeOutcome
  /-- Outcome of `cairosvg.svg2pdf`. -/
  pdfConvert : TranscodeOutcome

/-- `_run_potrace` (vectorization.py lines 105-154): raise on timeout, on
a missing executable, on a non-zero return code, and on a zero return code
that nevertheless produced no output file. -/
def run_potrace_model (outcome : RunOutcome) (created : Bool)
    (fmtUpper : String) : Except String Unit :=
  match outcome with
  | .timeoutExpired =>
    .error "Potrace timed out while generating vector output"
  | .fileNotFound =>
    .error "Potrace CLI not found at potrace"
  | .done returncode stderr =>
    if returncode ≠ 0 then
      .error ("Potrace failed: " ++ stderr)
    else if created = false then
      .error ("Potrace completed but " ++ fmtUpper ++ " file was not created")
    else
      .ok ()

/-- `_convert_svg_to_eps` (vectorization.py lines 156-168).  The inner
`raise VectorizationError("EPS file was not created")` is itself caught by
the surrounding `except Exception` clause and re-raised wrapped, hence the
prefixed message in both failure branches. -/
def convert_svg_to_eps_model (outcome : TranscodeOutcome) :
    Except String Unit :=
  match outcome with
  | .raised msg => .error ("Failed to convert SVG to EPS: " ++ msg)
  | .ran created =>
    if created then .ok ()
    else .error "Failed to convert SVG to EPS: EPS file was not created"

/-- `_convert_svg_to_pdf` (vectorization.py lines 170-182). -/
def convert_svg_to_pdf_model (outcome : TranscodeOutcome) :
    Except String Unit :=
  match outcome with
  | .raised msg => .error ("Failed to convert SVG to PDF: " ++ msg)
  | .ran created =>
    if created then .ok ()
    else .error "Failed to convert SVG to PDF: PDF file was not created"

/-- `VectorizationService.vectorize` (vectorization.py lines 42-82).
Returns the result of the call (`.ok` with the three output paths, or
`.error` for a raised `VectorizationError`) together with the list of
files present in the output directory afterwards.  The `_convert_to_bmp`
call happens before the `try`/`finally`; the `finally` block removes
`temp_input.bmp` if it exists, on every exit from the `try` body. -/
def vectorize (env : VEnv) :
    Except String (String × String × String) × List String :=
  match env.bmpConvert with
  | .error e => (.error ("Failed to convert image to BMP: " ++ e), [])
  | .ok _ =>
    let afterTry : Except String (String × String × String) × List String :=
      match run_potrace_model (env.potraceRun POTRACE_TIMEOUT)
          env.svgCreated "SVG" with
      | .error e =>
        (.error e,
          "temp_input.bmp" :: (if env.svgCreated then ["output.svg"] else []))
      | .ok _ =>
        match convert_svg_to_eps_model env.epsConvert with
        | .error e => (.error e, ["temp_input.bmp", "output.svg"])
        | .ok _ =>
          match convert_svg_to_pdf_model env.pdfConvert with
          | .error e =>
            (.error e, ["temp_input.bmp", "output.svg", "output.eps"])
          | .ok _ =>
            (.ok ("output.svg", "output.eps", "output.pdf"),
              ["temp_input.bmp", "output.svg", "output.eps", "output.pdf"])
    (afterTry.1, afterTry.2.erase "temp_input.bmp")

/-- C8: each fatal condition makes the whole `vectorize` call return
`VectorizationError` (atomic: an `.error` result carries no output paths):
tracing completing (return code 0) without its output file, a transcode
(EPS or PDF) producing no output file, and the tracing step exceeding its
30-second budget, reported as a timeout. -/
theorem vectorize_fatal_conditions (env : VEnv)
    (hbmp : env.bmpConvert = .ok ()) :
    (∀ stderr, env.potraceRun POTRACE_TIMEOUT = .done 0 stderr →
      env.svgCreated = false →
      (vectorize env).1 = .error "Potrace completed but SVG file was not created")
    ∧ (env.potraceRun POTRACE_TIMEOUT = .timeoutExpired →
      (vectorize env).1 = .error "Potrace timed out while generating vector output")
    ∧ (∀ stderr, env.potraceRun POTRACE_TIMEOUT = .done 0 stderr →
      env.svgCreated = true →
      env.epsConvert = .ran false →
      (vectorize env).1 = .error "Failed to convert SVG to EPS: EPS file was not created")
    ∧ (∀ stderr, env.potraceRun POTRACE_TIMEOUT = .done 0 stderr →
      env.svgCreated = true →
      env.epsConvert = .ran true →
      env.pdfConvert = .ran false →
      (vectorize env).1 = .error "Failed to convert SVG to PDF: PDF file was not created") := by
  refine ⟨?_, ?_, ?_, ?_⟩
  · intro stderr hrun hsvg
    simp [vectorize, hbmp, hrun, hsvg, run_potrace_model]
  · intro hrun
    simp [vectorize, hbmp, hrun, run_potrace_model]
  · intro stderr hrun hsvg heps
    simp [vectorize, hbmp, hrun, hsvg, heps, run_potrace_model,
      convert_svg_to_eps_model]
  · intro stderr hrun hsvg heps hpdf
    simp [vectorize, hbmp, hrun, hsvg, heps, hpdf, run_potrace_model,
      convert_svg_to_eps_model, convert_svg_to_pdf_model]

/-- Witness for C8: a concrete environment whose tracing step times out
makes `vectorize` fail with the timeout message. -/
theorem vectorize_fatal_conditions_witness :
    (vectorize
      { bmpConvert := .ok (), potraceRun := fun _ => .timeoutExpired,
        svgCreated := false, epsConvert := .ran true,
        pdfConvert := .ran true }).1
      = .error "Potrace timed out while generating vector output" :=
  (vectorize_fatal_conditions
    { bmpConvert := .ok (), potraceRun := fun _ => .timeoutExpired,
      svgCreated := false, epsConvert := .ran true,
      pdfConvert := .ran true } rfl).2.1 rfl

/-- C10: every call to `vectorize` — on the success path and on every
error path — leaves the output directory without the temporary
`temp_input.bmp` file it creates. -/
theorem vectorize_removes_temp_bmp (env : VEnv) :
    "temp_input.bmp" ∉ (vectorize env).2 := by
  unfold vectorize
  rcases hbmp : env.bmpConvert with e | u
  · simp
  · rcases hrun : run_potrace_model (env.potraceRun POTRACE_TIMEOUT)
        env.svgCreated "SVG" with e | u'
    · rcases hsvg : env.svgCreated <;> simp [List.erase_cons_head]
    · rcases heps : convert_svg_to_eps_model env.epsConvert with e | u''
      · simp [List.erase_cons_head]
      · rcases hpdf : convert_svg_to_pdf_model env.pdfConvert with e | u'''
        · simp [List.erase_cons_head]
        · simp [List.erase_cons_head]

/-! ## services/image_processing.py

`ImageProcessingService.preprocess` loads and normalizes an image, writes
a "normalized" artifact, optionally runs the rembg background-removal
capability (wrapped in a `try`/`except` that degrades to the unmodified
image), and writes a "preprocessed" artifact.  Images and the PIL
operations on them are opaque collaborators, so the model is parametrized
by an image type and by environment functions for the PIL steps. -/

/-- The background-removal capability as seen by `_remove_background`:
`get_remove_background()` either returns `none` (rembg not importable) or
a function that may itself raise. -/
def RembgCap (Img : Type) : Type := Option (Img → Except String Img)

/-- Environment of one `preprocess` call over an abstract image type:
the outcome of `Image.open` and the (deterministic, opaque) PIL
transformations the source applies before the background-removal step. -/
structure PreEnv (Img : Type) where
  /-- Outcome of `Image.open(input_path)` together with `img.size`. -/
  openResult : Except String (Img × Nat × Nat)
  /-- The mode-normalization block (composite on white / convert to RGB),
  lines 106-114. -/
  normalizeMode : Img → Img
  /-- The EXIF strip (copy pixel data into a fresh container), 116-120. -/
  stripExif : Img → Img
  /-- `_resize_if_needed`, line 123. -/
  resizeIfNeeded : Img → Img
  /-- The rembg capability used by `_remove_background`. -/
  rembg : RembgCap Img
  /-- The original file's extension-derived format string. -/
  original_format : String

/-- Result of `preprocess`: the returned dictionary plus, for the claims
about artifacts, the images written to the "normalized" and
"preprocessed" files. -/
structure PreResult (Img : Type) where
  original_format : String
  original_size : Nat × Nat
  background_removed : Bool
  normalizedImage : Img
  preprocessedImage : Img

/-- `_remove_background` (image_processing.py lines 170-196).  `.ok none`
models `return img` — the same object, so the caller's
`processed_img is not img` test is false; every other successful path
builds a fresh image, modelled as `.ok (some i)`.  A raise inside the
capability propagates as `.error`. -/
def remove_background_model {Img : Type} (cap : RembgCap Img) (img : Img) :
    Except String (Option Img) :=
  match cap with
  | none => .ok none
  | some f =>
    match f img with
    | .error e => .error e
    | .ok i => .ok (some i)

/-- `ImageProcessingService.preprocess` (image_processing.py lines
67-148): load (raising `ProcessingError` on failure), normalize, strip
EXIF, resize, record the normalized artifact, then try background removal
— updating the image and `background_removed` only when a *different*
object comes back, and swallowing any exception — and record the
preprocessed artifact. -/
def preprocess {Img : Type} (env : PreEnv Img) :
    Except String (PreResult Img) :=
  match env.openResult with
  | .error e => .error ("Failed to open image: " ++ e)
  | .ok (img0, w, h) =>
    let img1 := env.normalizeMode img0
    let img2 := env.stripExif img1
    let img3 := env.resizeIfNeeded img2
    match remove_background_model env.rembg img3 with
    | .ok (some i) =>
      .ok { original_format := env.original_format,
            original_size := (w, h),
            background_removed := true,
            normalizedImage := img3,
            preprocessedImage := i }
    | .ok none =>
      .ok { original_format := env.original_format,
            original_size := (w, h),
            background_removed := false,
            normalizedImage := img3,
            preprocessedImage := img3 }
    | .error _ =>
      .ok { original_format := env.original_format,
            original_size := (w, h),
            background_removed := false,
            normalizedImage := img3,
            preprocessedImage := img3 }

/-- C7: when the background-removal capability is absent, or its
invocation raises, `preprocess` still succeeds (given the image loaded),
reports `background_removed = false`, and writes a "preprocessed" artifact
identical to the "normalized" artifact. -/
theorem preprocess_rembg_degrades {Img : Type} (env : PreEnv Img)
    (img0 : Img) (w h : Nat)
    (hopen : env.openResult = .ok (img0, w, h))
    (hcap : env.rembg = none ∨
      ∃ f e, env.rembg = some f ∧
        f (env.resizeIfNeeded (env.stripExif (env.normalizeMode img0)))
          = .error e) :
    ∃ r, preprocess env = .ok r
      ∧ r.background_removed = false
      ∧ r.preprocessedImage = r.normalizedImage := by
  rcases hcap with hcap | ⟨f, e, hcap, hf⟩
  · have heq : preprocess env = .ok
        { original_format := env.original_format,
          original_size := (w, h),
          background_removed := false,
          normalizedImage :=
            env.resizeIfNeeded (env.stripExif (env.normalizeMode img0)),
          preprocessedImage :=
            env.resizeIfNeeded (env.stripExif (env.normalizeMode img0)) } := by
      simp [preprocess, hopen, remove_background_model, hcap]
    exact ⟨_, heq, rfl, rfl⟩
  · have heq : preprocess env = .ok
        { original_format := env.original_format,
          original_size := (w, h),
          background_removed := false,
          normalizedImage :=
            env.resizeIfNeeded (env.stripExif (env.normalizeMode img0)),
          preprocessedImage :=
            env.resizeIfNeeded (env.stripExif (env.normalizeMode img0)) } := by
      simp [preprocess, hopen, remove_background_model, hcap, hf]
    exact ⟨_, heq, rfl, rfl⟩

/-- Witness for C7: a concrete environment over `Img := Nat` whose rembg
capability raises; `preprocess` succeeds with no background removal and
equal artifacts. -/
theorem preprocess_rembg_degrades_witness :
    ∃ r, @preprocess Nat
      { openResult := .ok (7, 5, 5), normalizeMode := id, stripExif := id,
        resizeIfNeeded := id, rembg := some (fun _ => .error "rembg failed"),
        original_format := "png" } = .ok r
      ∧ r.background_removed = false
      ∧ r.preprocessedImage = r.normalizedImage :=
  preprocess_rembg_degrades
    { openResult := .ok (7, 5, 5), normalizeMode := id, stripExif := id,
      resizeIfNeeded := id, rembg := some (fun _ => .error "rembg failed"),
      original_format := "png" }
    7 5 5 rfl
    (Or.inr ⟨fun _ => .error "rembg failed", "rembg failed", rfl, rfl⟩)

/-! ## workers/processing.py — the job orchestrator

The in-memory status store `_job_status` is a map from job id to a status
dictionary.  The dictionary keys actually used by the module are fixed, so
entries are a structure with `Option` fields for the keys that may be
absent, and `set_job_status`'s `**kwargs` is a record of optional fields
(`some v` = keyword given with value `v`); `dict.update` overrides exactly
the given keys.  Timestamps (`datetime.utcnow()`) are modelled by a `Nat`
clock threaded through the calls. -/

/-- The `files` dictionary built on completion (processing.py 160-165). -/
structure JobFiles where
  original : String
  svg : String
  eps : String
  pdf : String
deriving DecidableEq

/-- The `metadata` dictionary built on completion (processing.py 168-173). -/
structure JobMeta where
  original_format : String
  original_size : Nat × Nat
  background_removed : Bool
  processing_time_seconds : Nat
deriving DecidableEq

/-- One entry of `_job_status` (processing.py 37-60). -/
structure JobEntry where
  job_id : String
  status : String
  progress : Nat
  stage : String
  created_at : Nat
  updated_at : Nat
  original_filename : Option String := none
  files : Option JobFiles := none
  metadata : Option JobMeta := none
  completed_at : Option Nat := none
  error_code : Option String := none
  error_message : Option String := none
deriving DecidableEq

/-- The `**kwargs` of one `set_job_status` call: `some v` means the
keyword was passed with value `v`. -/
structure JobUpdate where
  status : Option String := none
  progress : Option Nat := none
  stage : Option String := none
  original_filename : Option String := none
  files : Option JobFiles := none
  metadata : Option JobMeta := none
  completed_at : Option Nat := none
  error_code : Option String := none
  error_message : Option String := none
deriving DecidableEq

/-- The `_job_status` store. -/
def JobMap : Type := String → Option JobEntry

/-- The store at module load: no entries. -/
def emptyJobs : JobMap := fun _ => none

/-- `dict.update` on one optional key: a supplied keyword overrides. -/
def updOpt {α : Type} (new old : Option α) : Option α :=
  match new with
  | some v => some v
  | none => old

/-- `_job_status[job_id].update(kwargs)` followed by the unconditional
`updated_at` stamp (processing.py 59-60). -/
def applyUpdate (e : JobEntry) (u : JobUpdate) (now : Nat) : JobEntry :=
  { job_id := e.job_id
    status := u.status.getD e.status
    progress := u.progress.getD e.progress
    stage := u.stage.getD e.stage
    created_at := e.created_at
    updated_at := now
    original_filename := updOpt u.original_filename e.original_filename
    files := updOpt u.files e.files
    metadata := updOpt u.metadata e.metadata
    completed_at := updOpt u.completed_at e.completed_at
    error_code := updOpt u.error_code e.error_code
    error_message := updOpt u.error_message e.error_message }

/-- The default entry installed for an unknown id (processing.py 49-57). -/
def freshEntry (job_id : String) (now : Nat) : JobEntry :=
  { job_id := job_id
    status := "queued"
    progress := 0
    stage := "Initializing..."
    created_at := now
    updated_at := now }

/-- `get_job_status` (processing.py 42-44). -/
def get_job_status (m : JobMap) (job_id : String) : Option JobEntry :=
  m job_id

/-- `set_job_status` (processing.py 47-60): install the default entry when
the id is unknown, then apply the keyword updates and stamp `updated_at`. -/
def set_job_status (m : JobMap) (job_id : String) (u : JobUpdate)
    (now : Nat) : JobMap :=
  let base : JobEntry :=
    match m job_id with
    | some e => e
    | none => freshEntry job_id now
  fun id => if id = job_id then some (applyUpdate base u now) else m id

/-- `create_job` (processing.py 63-83); the uuid is an input of the model. -/
def create_job (job_id original_filename : String) (m : JobMap)
    (now : Nat) : JobMap :=
  set_job_status m job_id
    { status := some "queued"
      progress := some 0
      stage := some "Queued for processing"
      original_filename := some original_filename } now

/-- The Python exceptions that can cross a stage boundary in
`process_job`: the two classified kinds of utils/errors.py, and anything
else (`otherExc` carries `type(e).__name__` and `str(e)`). -/
inductive PyExc where
  | processingError (msg : String)
  | vectorizationError (msg : String)
  | otherExc (excName msg : String)
deriving DecidableEq

/-- `type(e).__name__`. -/
def kindTag : PyExc → String
  | .processingError _ => "ProcessingError"
  | .vectorizationError _ => "VectorizationError"
  | .otherExc n _ => n

/-- `str(e)` (`VectorConversionError.__init__` passes the message to
`Exception`, so `str(e)` is the underlying message). -/
def excMsg : PyExc → String
  | .processingError m => m
  | .vectorizationError m => m
  | .otherExc _ m => m

/-- Whether the exception matches the
`except (ProcessingError, VectorizationError)` clause. -/
def isKnownExc : PyExc → Bool
  | .processingError _ => true
  | .vectorizationError _ => true
  | .otherExc _ _ => false

/-- The preprocess result dictionary as consumed by `process_job`. -/
structure PreprocessOut where
  preprocessed_path : String
  original_format : String
  original_size : Nat × Nat
  background_removed : Bool
deriving DecidableEq

/-- The vectorize result dictionary as consumed by `process_job`. -/
structure VectorizeOut where
  svg : String
  eps : String
  pdf : String
deriving DecidableEq

/-- Environment of one `process_job` call: the outcome of each external
operation, in source order.  `potraceInstalled` models
`shutil.which("potrace")` in `VectorizationService.__init__`, which runs
at processing.py line 113 — before the `try` of line 115. -/
structure PJEnv where
  potraceInstalled : Bool
  inputExists : Bool
  inputPath : String
  inputSuffix : String
  saveOriginal : Except PyExc Unit
  preprocessRes : Except PyExc PreprocessOut
  vectorizeRes : Except PyExc VectorizeOut
  elapsed : Nat

/-- What `process_job` returns to its caller when no exception
propagates: the completed dict or the failed dict. -/
inductive RunRet where
  | completed (files : JobFiles) (metadata : JobMeta)
  | failed (error_code error_message : String)
deriving DecidableEq

/-- The message of the `VectorizationError` raised by
`VectorizationService.__init__` when potrace is missing
(vectorization.py 37-40). -/
def potraceMissingMsg : String :=
  "Potrace CLI not found. Please install it via the system package manager."

/-- processing.py line 117. -/
def startUpdate : JobUpdate :=
  { status := some "processing", progress := some 5,
    stage := some "Starting..." }

/-- processing.py line 127. -/
def save10 : JobUpdate :=
  { progress := some 10, stage := some "Saving original..." }

/-- processing.py line 133. -/
def pre20 : JobUpdate :=
  { progress := some 20, stage := some "Removing background..." }

/-- processing.py line 141. -/
def pre40 : JobUpdate :=
  { progress := some 40, stage := some "Image preprocessed" }

/-- processing.py line 144. -/
def vec50 : JobUpdate :=
  { progress := some 50, stage := some "Converting to vectors..." }

/-- processing.py line 151. -/
def vec80 : JobUpdate :=
  { progress := some 80, stage := some "Vectorization complete" }

/-- processing.py line 154. -/
def fin90 : JobUpdate :=
  { progress := some 90, stage := some "Finalizing..." }

/-- The file-URL dictionary (processing.py 160-165). -/
def buildFiles (job_id suffix : String) : JobFiles :=
  { original := "/api/files/" ++ job_id ++ "/original" ++ suffix
    svg := "/api/files/" ++ job_id ++ "/output.svg"
    eps := "/api/files/" ++ job_id ++ "/output.eps"
    pdf := "/api/files/" ++ job_id ++ "/output.pdf" }

/-- The metadata dictionary (processing.py 168-173). -/
def buildMeta (p : PreprocessOut) (elapsed : Nat) : JobMeta :=
  { original_format := p.original_format
    original_size := p.original_size
    background_removed := p.background_removed
    processing_time_seconds := elapsed }

/-- The completing `set_job_status` kwargs (processing.py 176-184). -/
def completeUpdate (files : JobFiles) (md : JobMeta) (now : Nat) :
    JobUpdate :=
  { status := some "completed", progress := some 100,
    stage := some "Complete", files := some files, metadata := some md,
    completed_at := some now }

/-- The kwargs of the failure handlers (processing.py 193-223): the known
kinds keep their own tag and message; anything else becomes
`UNEXPECTED_ERROR` with a prefixed message. -/
def failUpdate (e : PyExc) : JobUpdate :=
  if isKnownExc e then
    { status := some "failed", progress := some 0, stage := some "Failed",
      error_code := some (kindTag e), error_message := some (excMsg e) }
  else
    { status := some "failed", progress := some 0, stage := some "Failed",
      error_code := some "UNEXPECTED_ERROR",
      error_message := some ("An unexpected error occurred: " ++ excMsg e) }

/-- The dict returned by the failure handlers (processing.py 204-209 and
225-230; the unclassified branch returns the *unprefixed* `str(e)`). -/
def failRet (e : PyExc) : RunRet :=
  if isKnownExc e then .failed (kindTag e) (excMsg e)
  else .failed "UNEXPECTED_ERROR" (excMsg e)

/-- `process_job` (processing.py 86-230).  The three service constructors
run first (lines 111-113): when potrace is missing,
`VectorizationService.__init__` raises before the `try`, so the exception
propagates (`.error`) and no status is written.  Otherwise the body runs;
every failure of a stage inside the `try` is caught by one of the two
handlers, so the call returns `.ok` with either the completed or the
failed dict.  Each `set_job_status` uses the successive clock values
`t0, t0+1, ...`. -/
def process_job (env : PJEnv) (job_id : String) (m : JobMap) (t0 : Nat) :
    Except PyExc RunRet × JobMap :=
  if env.potraceInstalled = false then
    (.error (.vectorizationError potraceMissingMsg), m)
  else
    let m1 := set_job_status m job_id startUpdate t0
    if env.inputExists = false then
      let e := PyExc.processingError
        ("Input file not found: " ++ env.inputPath)
      (.ok (failRet e), set_job_status m1 job_id (failUpdate e) (t0 + 1))
    else
      let m2 := set_job_status m1 job_id save10 (t0 + 1)
      match env.saveOriginal with
      | .error e =>
        (.ok (failRet e), set_job_status m2 job_id (failUpdate e) (t0 + 2))
      | .ok _ =>
        let m3 := set_job_status m2 job_id pre20 (t0 + 2)
        match env.preprocessRes with
        | .error e =>
          (.ok (failRet e),
            set_job_status m3 job_id (failUpdate e) (t0 + 3))
        | .ok p =>
          let m4 := set_job_status m3 job_id pre40 (t0 + 3)
          let m5 := set_job_status m4 job_id vec50 (t0 + 4)
          match env.vectorizeRes with
          | .error e =>
            (.ok (failRet e),
              set_job_status m5 job_id (failUpdate e) (t0 + 5))
          | .ok _ =>
            let m6 := set_job_status m5 job_id vec80 (t0 + 5)
            let m7 := set_job_status m6 job_id fin90 (t0 + 6)
            let files := buildFiles job_id env.inputSuffix
            let md := buildMeta p env.elapsed
            let m8 := set_job_status m7 job_id
              (completeUpdate files md (t0 + 7)) (t0 + 7)
            (.ok (.completed files md), m8)

/-- The sequence of `set_job_status` kwargs performed by `process_job`
(empty when the constructor raises before the `try`).  The completing
update needs the clock value of its own call, `t0 + 7`. -/
def process_job_writes (env : PJEnv) (job_id : String) (t0 : Nat) :
    List JobUpdate :=
  if env.potraceInstalled = false then []
  else if env.inputExists = false then
    [startUpdate,
      failUpdate (.processingError ("Input file not found: " ++ env.inputPath))]
  else
    match env.saveOriginal with
    | .error e => [startUpdate, save10, failUpdate e]
    | .ok _ =>
      match env.preprocessRes with
      | .error e => [startUpdate, save10, pre20, failUpdate e]
      | .ok p =>
        match env.vectorizeRes with
        | .error e =>
          [startUpdate, save10, pre20, pre40, vec50, failUpdate e]
        | .ok _ =>
          [startUpdate, save10, pre20, pre40, vec50, vec80, fin90,
            completeUpdate (buildFiles job_id env.inputSuffix)
              (buildMeta p env.elapsed) (t0 + 7)]

/-- The successive states of the store after each of a list of
`set_job_status` calls on `job_id`, with the clock advancing by one per
call. -/
def statesFrom (job_id : String) : JobMap → Nat → List JobUpdate →
    List JobMap
  | _, _, [] => []
  | m, t, u :: us =>
    let m' := set_job_status m job_id u t
    m' :: statesFrom job_id m' (t + 1) us

/-- Every store state observable during the canonical lifecycle of a
fresh job: after `create_job`, and after each `set_job_status` performed
by the subsequent `process_job` run. -/
def lifecycleStates (env : PJEnv) (job_id original_filename : String)
    (t0 : Nat) : List JobMap :=
  let m1 := create_job job_id original_filename emptyJobs t0
  m1 :: statesFrom job_id m1 (t0 + 1) (process_job_writes env job_id (t0 + 1))

/-- The first exception raised inside the `try` of `process_job`, if any
(`none` when the whole pipeline succeeds). -/
def firstFailure (env : PJEnv) : Option PyExc :=
  if env.inputExists = false then
    some (.processingError ("Input file not found: " ++ env.inputPath))
  else
    match env.saveOriginal with
    | .error e => some e
    | .ok _ =>
      match env.preprocessRes with
      | .error e => some e
      | .ok _ =>
        match env.vectorizeRes with
        | .error e => some e
        | .ok _ => none

lemma set_job_status_self (m : JobMap) (job_id : String) (u : JobUpdate)
    (t : Nat) :
    set_job_status m job_id u t job_id =
      some (applyUpdate ((m job_id).getD (freshEntry job_id t)) u t) := by
  unfold set_job_status
  cases h : m job_id <;> simp [h]

lemma set_job_status_ne (m : JobMap) (job_id id : String) (u : JobUpdate)
    (t : Nat) (h : id ≠ job_id) :
    set_job_status m job_id u t id = m id := by
  simp [set_job_status, h]

lemma failUpdate_status (e : PyExc) : (failUpdate e).status = some "failed" := by
  cases e <;> simp [failUpdate, isKnownExc]

lemma failUpdate_progress (e : PyExc) : (failUpdate e).progress = some 0 := by
  cases e <;> simp [failUpdate, isKnownExc]

lemma failUpdate_stage (e : PyExc) : (failUpdate e).stage = some "Failed" := by
  cases e <;> simp [failUpdate, isKnownExc]

lemma failUpdate_files (e : PyExc) : (failUpdate e).files = none := by
  cases e <;> simp [failUpdate, isKnownExc]

lemma failUpdate_known (e : PyExc) (h : isKnownExc e = true) :
    failUpdate e =
      { status := some "failed", progress := some 0, stage := some "Failed",
        error_code := some (kindTag e),
        error_message := some (excMsg e) } := by
  simp [failUpdate, h]

lemma failUpdate_other (n msg : String) :
    failUpdate (.otherExc n msg) =
      { status := some "failed", progress := some 0, stage := some "Failed",
        error_code := some "UNEXPECTED_ERROR",
        error_message :=
          some ("An unexpected error occurred: " ++ msg) } := by
  simp [failUpdate, isKnownExc, excMsg]

/-- A concrete environment in which potrace is not installed: the
`VectorizationService` constructor raises before the `try` block. -/
def cexEnvNoPotrace : PJEnv :=
  { potraceInstalled := false
    inputExists := true
    inputPath := "/tmp/upload.png"
    inputSuffix := ".png"
    saveOriginal := .ok ()
    preprocessRes := .ok
      { preprocessed_path := "p.png", original_format := "png",
        original_size := (5, 5), background_removed := false }
    vectorizeRes := .ok { svg := "s", eps := "e", pdf := "p" }
    elapsed := 1 }

/-- A fully successful concrete environment. -/
def okEnv : PJEnv :=
  { potraceInstalled := true
    inputExists := true
    inputPath := "/tmp/upload.png"
    inputSuffix := ".png"
    saveOriginal := .ok ()
    preprocessRes := .ok
      { preprocessed_path := "p.png", original_format := "png",
        original_size := (5, 5), background_removed := false }
    vectorizeRes := .ok { svg := "s", eps := "e", pdf := "p" }
    elapsed := 2 }

/-- Counterexample to C1 as stated: on a created job, with potrace
missing, `process_job` lets the constructor's `VectorizationError`
propagate to the caller (the service constructors of processing.py lines
111-113 run before the `try` of line 115), and the job is left in status
`queued`. -/
theorem process_job_can_propagate :
    (process_job cexEnvNoPotrace "j1"
        (create_job "j1" "logo.png" emptyJobs 0) 1).1
      = .error (.vectorizationError potraceMissingMsg)
    ∧ (get_job_status
        (process_job cexEnvNoPotrace "j1"
          (create_job "j1" "logo.png" emptyJobs 0) 1).2
        "j1").map JobEntry.status = some "queued" := by
  constructor
  · rfl
  · rfl

/-- C1 as amended: *once the services are constructed* (potrace present),
no exception propagates out of `process_job`: it always returns a dict,
the final status of the job is terminal (`completed` or `failed`), and a
failure that is not a `ProcessingError`/`VectorizationError` still yields
a failed job with the generic `UNEXPECTED_ERROR` code.  (When potrace is
missing the constructor's error propagates before any status write — see
the counterexample.) -/
theorem process_job_no_propagation (env : PJEnv) (id : String)
    (m : JobMap) (t0 : Nat) (hpo : env.potraceInstalled = true) :
    (∃ r, (process_job env id m t0).1 = .ok r)
    ∧ (∃ en, get_job_status (process_job env id m t0).2 id = some en
        ∧ (en.status = "completed" ∨ en.status = "failed"))
    ∧ (∀ n msg, firstFailure env = some (.otherExc n msg) →
        ∃ en, get_job_status (process_job env id m t0).2 id = some en
          ∧ en.status = "failed"
          ∧ en.error_code = some "UNEXPECTED_ERROR"
          ∧ en.error_message =
              some ("An unexpected error occurred: " ++ msg)) := by
  cases hex : env.inputExists with
  | false =>
    refine ⟨⟨_, by simp [process_job, hpo, hex] <;> rfl⟩, ?_, ?_⟩
    · simp [process_job, hpo, hex, get_job_status, set_job_status_self,
        applyUpdate, failUpdate_status]
    · intro n msg hf
      simp [firstFailure, hex] at hf
  | true =>
    cases hso : env.saveOriginal with
    | error e =>
      refine ⟨⟨_, by simp [process_job, hpo, hex, hso] <;> rfl⟩, ?_, ?_⟩
      · simp [process_job, hpo, hex, hso, get_job_status,
          set_job_status_self, applyUpdate, failUpdate_status]
      · intro n msg hf
        simp [firstFailure, hex, hso] at hf
        subst hf
        simp [process_job, hpo, hex, hso, get_job_status,
          set_job_status_self, applyUpdate, updOpt, failUpdate_other, excMsg]
    | ok u =>
      cases hpre : env.preprocessRes with
      | error e =>
        refine ⟨⟨_, by simp [process_job, hpo, hex, hso, hpre] <;> rfl⟩, ?_, ?_⟩
        · simp [process_job, hpo, hex, hso, hpre, get_job_status,
            set_job_status_self, applyUpdate, failUpdate_status]
        · intro n msg hf
          simp [firstFailure, hex, hso, hpre] at hf
          subst hf
          simp [process_job, hpo, hex, hso, hpre, get_job_status,
            set_job_status_self, applyUpdate, updOpt, failUpdate_other, excMsg]
      | ok p =>
        cases hvec : env.vectorizeRes with
        | error e =>
          refine ⟨⟨_, by simp [process_job, hpo, hex, hso, hpre, hvec] <;> rfl⟩,
            ?_, ?_⟩
          · simp [process_job, hpo, hex, hso, hpre, hvec, get_job_status,
              set_job_status_self, applyUpdate, failUpdate_status]
          · intro n msg hf
            simp [firstFailure, hex, hso, hpre, hvec] at hf
            subst hf
            simp [process_job, hpo, hex, hso, hpre, hvec, get_job_status,
              set_job_status_self, applyUpdate, updOpt, failUpdate_other, excMsg]
        | ok v =>
          refine ⟨⟨_, by simp [process_job, hpo, hex, hso, hpre, hvec] <;> rfl⟩,
            ?_, ?_⟩
          · simp [process_job, hpo, hex, hso, hpre, hvec, get_job_status,
              set_job_status_self, applyUpdate, completeUpdate]
          · intro n msg hf
            simp [firstFailure, hex, hso, hpre, hvec] at hf

/-- Witness for C1 (amended): the fully successful environment returns a
dict and leaves the job terminal. -/
theorem process_job_no_propagation_witness :
    (∃ r, (process_job okEnv "j1" emptyJobs 0).1 = .ok r)
    ∧ (∃ en, get_job_status (process_job okEnv "j1" emptyJobs 0).2 "j1"
        = some en ∧ (en.status = "completed" ∨ en.status = "failed"))
    ∧ (∀ n msg, firstFailure okEnv = some (.otherExc n msg) →
        ∃ en, get_job_status (process_job okEnv "j1" emptyJobs 0).2 "j1"
          = some en
          ∧ en.status = "failed"
          ∧ en.error_code = some "UNEXPECTED_ERROR"
          ∧ en.error_message =
              some ("An unexpected error occurred: " ++ msg)) :=
  process_job_no_propagation okEnv "j1" emptyJobs 0 rfl

/-- C2: when a pipeline stage (preprocess or vectorize) raises a
`ProcessingError` or `VectorizationError`, the job is transitioned to
`failed` with `error_code` equal to the exception's own class name (not
reinterpreted), `error_message` equal to the underlying message, progress
reset to 0, and no `files` entry in the status (given the entry had none
to begin with, as after `create_job`). -/
theorem process_job_known_stage_failure (env : PJEnv) (id : String)
    (m : JobMap) (t0 : Nat) (e : PyExc)
    (hpo : env.potraceInstalled = true)
    (hex : env.inputExists = true)
    (hso : env.saveOriginal = .ok ())
    (hfiles : (get_job_status m id).bind JobEntry.files = none)
    (hknown : isKnownExc e = true)
    (hstage : env.preprocessRes = .error e ∨
      (∃ p, env.preprocessRes = .ok p ∧ env.vectorizeRes = .error e)) :
    ∃ en, get_job_status (process_job env id m t0).2 id = some en
      ∧ en.status = "failed"
      ∧ en.error_code = some (kindTag e)
      ∧ en.error_message = some (excMsg e)
      ∧ en.progress = 0
      ∧ en.files = none := by
  have hbase : ((m id).getD (freshEntry id t0)).files = none := by
    cases hm : m id with
    | none => simp [freshEntry]
    | some en0 =>
      simp [get_job_status, hm] at hfiles
      simp [hfiles]
  rcases hstage with hpre | ⟨p, hpre, hvec⟩
  · simp [process_job, hpo, hex, hso, hpre, get_job_status,
      set_job_status_self, applyUpdate, updOpt, failUpdate_known e hknown,
      startUpdate, save10, pre20, hbase]
  · simp [process_job, hpo, hex, hso, hpre, hvec, get_job_status,
      set_job_status_self, applyUpdate, updOpt, failUpdate_known e hknown,
      startUpdate, save10, pre20, pre40, vec50, hbase]

/-- A concrete environment whose preprocess stage raises
`ProcessingError("Failed to open image: bad data")`. -/
def cexEnvPreFail : PJEnv :=
  { potraceInstalled := true
    inputExists := true
    inputPath := "/tmp/upload.png"
    inputSuffix := ".png"
    saveOriginal := .ok ()
    preprocessRes := .error (.processingError "Failed to open image: bad data")
    vectorizeRes := .ok { svg := "s", eps := "e", pdf := "p" }
    elapsed := 1 }

/-- Witness for C2: the concrete preprocess-failure environment yields a
failed entry tagged `ProcessingError` with the underlying message,
progress 0 and no files. -/
theorem process_job_known_stage_failure_witness :
    ∃ en, get_job_status
        (process_job cexEnvPreFail "j1"
          (create_job "j1" "logo.png" emptyJobs 0) 1).2 "j1" = some en
      ∧ en.status = "failed"
      ∧ en.error_code = some (kindTag
          (.processingError "Failed to open image: bad data"))
      ∧ en.error_message = some (excMsg
          (.processingError "Failed to open image: bad data"))
      ∧ en.progress = 0
      ∧ en.files = none :=
  process_job_known_stage_failure cexEnvPreFail "j1"
    (create_job "j1" "logo.png" emptyJobs 0) 1
    (.processingError "Failed to open image: bad data")
    rfl rfl rfl (by rfl) rfl (Or.inl rfl)

/-- The final store of `process_job` is the last lifecycle state: the
write sequence `process_job_writes` is exactly the sequence of
`set_job_status` calls `process_job` performs. -/
lemma process_job_writes_sound (env : PJEnv) (id fname : String)
    (t0 : Nat) :
    (process_job env id (create_job id fname emptyJobs t0) (t0 + 1)).2 =
      (lifecycleStates env id fname t0).getLastD emptyJobs := by
  cases hpo : env.potraceInstalled with
  | false =>
    simp [process_job, lifecycleStates, process_job_writes, statesFrom, hpo]
  | true =>
    cases hex : env.inputExists with
    | false =>
      simp [process_job, lifecycleStates, process_job_writes, statesFrom,
        hpo, hex]
    | true =>
      cases hso : env.saveOriginal with
      | error e =>
        simp [process_job, lifecycleStates, process_job_writes, statesFrom,
          hpo, hex, hso]
      | ok u =>
        cases hpre : env.preprocessRes with
        | error e =>
          simp [process_job, lifecycleStates, process_job_writes,
            statesFrom, hpo, hex, hso, hpre]
        | ok p =>
          cases hvec : env.vectorizeRes with
          | error e =>
            simp [process_job, lifecycleStates, process_job_writes,
              statesFrom, hpo, hex, hso, hpre, hvec]
          | ok v =>
            simp [process_job, lifecycleStates, process_job_writes,
              statesFrom, hpo, hex, hso, hpre, hvec]

/-- C3: at every observable point of a fresh job's lifecycle — after
`create_job` and after each `set_job_status` performed by `process_job` —
the status entry has a `files` mapping only when its status is
`completed`. -/
theorem files_only_when_completed (env : PJEnv) (id fname : String)
    (t0 : Nat) :
    ∀ mm ∈ lifecycleStates env id fname t0, ∀ en,
      get_job_status mm id = some en → en.files.isSome = true →
        en.status = "completed" := by
  intro mm hmm
  cases hpo : env.potraceInstalled with
  | false =>
    simp [lifecycleStates, process_job_writes, statesFrom, hpo] at hmm
    subst hmm
    simp [create_job, emptyJobs, freshEntry, get_job_status,
      set_job_status_self, applyUpdate, updOpt]
  | true =>
    cases hex : env.inputExists with
    | false =>
      simp [lifecycleStates, process_job_writes, statesFrom, hpo,
        hex] at hmm
      rcases hmm with hmm | hmm | hmm <;> subst hmm <;>
        simp [create_job, emptyJobs, freshEntry, get_job_status,
          set_job_status_self, applyUpdate, updOpt, startUpdate,
          failUpdate_status, failUpdate_files]
    | true =>
      cases hso : env.saveOriginal with
      | error e =>
        simp [lifecycleStates, process_job_writes, statesFrom, hpo, hex,
          hso] at hmm
        rcases hmm with hmm | hmm | hmm | hmm <;> subst hmm <;>
          simp [create_job, emptyJobs, freshEntry, get_job_status,
            set_job_status_self, applyUpdate, updOpt, startUpdate, save10,
            failUpdate_status, failUpdate_files]
      | ok u =>
        cases hpre : env.preprocessRes with
        | error e =>
          simp [lifecycleStates, process_job_writes, statesFrom, hpo, hex,
            hso, hpre] at hmm
          rcases hmm with hmm | hmm | hmm | hmm | hmm <;> subst hmm <;>
            simp [create_job, emptyJobs, freshEntry, get_job_status,
              set_job_status_self, applyUpdate, updOpt, startUpdate,
              save10, pre20, failUpdate_status, failUpdate_files]
        | ok p =>
          cases hvec : env.vectorizeRes with
          | error e =>
            simp [lifecycleStates, process_job_writes, statesFrom, hpo,
              hex, hso, hpre, hvec] at hmm
            rcases hmm with hmm | hmm | hmm | hmm | hmm | hmm | hmm <;>
              subst hmm <;>
              simp [create_job, emptyJobs, freshEntry, get_job_status,
                set_job_status_self, applyUpdate, updOpt, startUpdate,
                save10, pre20, pre40, vec50, failUpdate_status,
                failUpdate_files]
          | ok v =>
            simp [lifecycleStates, process_job_writes, statesFrom, hpo,
              hex, hso, hpre, hvec] at hmm
            rcases hmm with hmm | hmm | hmm | hmm | hmm | hmm | hmm |
              hmm | hmm <;> subst hmm <;>
              simp [create_job, emptyJobs, freshEntry, get_job_status,
                set_job_status_self, applyUpdate, updOpt, startUpdate,
                save10, pre20, pre40, vec50, vec80, fin90, completeUpdate]

/-- Witness for C3: in the successful lifecycle there is an observable
state whose entry has files, and the theorem forces its status to be
`completed`. -/
theorem files_only_when_completed_witness :
    ∃ mm ∈ lifecycleStates okEnv "j1" "logo.png" 0, ∃ en,
      get_job_status mm "j1" = some en ∧ en.files.isSome = true
        ∧ en.status = "completed" := by
  refine ⟨(lifecycleStates okEnv "j1" "logo.png" 0).getLastD emptyJobs,
    ?_, ?_⟩
  · show (lifecycleStates okEnv "j1" "logo.png" 0).getLastD emptyJobs ∈ _
    simp [lifecycleStates, process_job_writes, okEnv, statesFrom]
  · refine ⟨_, rfl, ?_, ?_⟩
    · rfl
    · exact files_only_when_completed okEnv "j1" "logo.png" 0
        ((lifecycleStates okEnv "j1" "logo.png" 0).getLastD emptyJobs)
        (by simp [lifecycleStates, process_job_writes, okEnv, statesFrom])
        _ rfl rfl

/-- Counterexample to C4 as stated: in the lifecycle of a job whose
preprocess stage fails, the observable progress goes 0, 5, 10, 20 and then
drops back to 0 — the drop is performed by the failure handler's
`set_job_status` inside `process_job` (processing.py line 197), not by job
creation, so progress is *not* reset only on job creation. -/
theorem progress_reset_outside_creation :
    (((lifecycleStates cexEnvPreFail "j1" "logo.png" 0)[3]?).bind
        (fun mm => (get_job_status mm "j1").map JobEntry.progress)
      = some 20)
    ∧ (((lifecycleStates cexEnvPreFail "j1" "logo.png" 0)[4]?).bind
        (fun mm => (get_job_status mm "j1").map JobEntry.progress)
      = some 0)
    ∧ (((lifecycleStates cexEnvPreFail "j1" "logo.png" 0)[4]?).bind
        (fun mm => (get_job_status mm "j1").map JobEntry.status)
      = some "failed") :=
  ⟨rfl, rfl, rfl⟩

/-- The step relation of the amended C4, over observations of
(progress, status): progress never decreases except in the step that
simultaneously sets status `failed` and progress 0. -/
def progressStep : Option (Nat × String) → Option (Nat × String) → Prop :=
  fun a b =>
    match a, b with
    | some (p1, _), some (p2, s2) => p1 ≤ p2 ∨ (s2 = "failed" ∧ p2 = 0)
    | _, _ => True

/-- C4 as amended: over every lifecycle, (i) between consecutive
observable states progress is non-decreasing except for the failure
transition, which resets it to 0 as it sets status `failed`; (ii) a
`completed` entry always shows progress 100; (iii) in a fully successful
run the observed progress values are exactly the checkpoints
0, 5, 10, 20, 40, 50, 80, 90, 100.  (The claim's "reset only on job
creation" fails: the failure handler also resets progress — see the
counterexample.) -/
theorem progress_monotone_amended (env : PJEnv) (id fname : String)
    (t0 : Nat) :
    List.Chain' progressStep
      ((lifecycleStates env id fname t0).map
        (fun mm => (get_job_status mm id).map
          (fun en => (en.progress, en.status))))
    ∧ (∀ mm ∈ lifecycleStates env id fname t0, ∀ en,
        get_job_status mm id = some en → en.status = "completed" →
          en.progress = 100)
    ∧ (∀ p v, env.saveOriginal = .ok () → env.preprocessRes = .ok p →
        env.vectorizeRes = .ok v → env.potraceInstalled = true →
        env.inputExists = true →
        (lifecycleStates env id fname t0).map
            (fun mm => (get_job_status mm id).map JobEntry.progress)
          = [some 0, some 5, some 10, some 20, some 40, some 50, some 80,
             some 90, some 100]) := by
  cases hpo : env.potraceInstalled with
  | false =>
    refine ⟨?_, ?_, ?_⟩
    · simp [lifecycleStates, process_job_writes, statesFrom, hpo,
        create_job, emptyJobs, freshEntry, get_job_status,
        set_job_status_self, applyUpdate, updOpt]
    · intro mm hmm
      simp [lifecycleStates, process_job_writes, statesFrom, hpo] at hmm
      subst hmm
      simp [create_job, emptyJobs, freshEntry, get_job_status,
        set_job_status_self, applyUpdate, updOpt]
    · intro p2 v2 h1 h2 h3 h4 h5
      exact absurd h4 (by simp)
  | true =>
    cases hex : env.inputExists with
    | false =>
      refine ⟨?_, ?_, ?_⟩
      · simp [lifecycleStates, process_job_writes, statesFrom, hpo, hex,
          create_job, emptyJobs, freshEntry, get_job_status,
          set_job_status_self, applyUpdate, updOpt, startUpdate,
          failUpdate_status, failUpdate_progress, List.chain'_cons,
          progressStep]
      · intro mm hmm
        simp [lifecycleStates, process_job_writes, statesFrom, hpo,
          hex] at hmm
        rcases hmm with hmm | hmm | hmm <;> subst hmm <;>
          simp [create_job, emptyJobs, freshEntry, get_job_status,
            set_job_status_self, applyUpdate, updOpt, startUpdate,
            failUpdate_status, failUpdate_progress]
      · intro p2 v2 h1 h2 h3 h4 h5
        exact absurd h5 (by simp)
    | true =>
      cases hso : env.saveOriginal with
      | error e =>
        refine ⟨?_, ?_, ?_⟩
        · simp [lifecycleStates, process_job_writes, statesFrom, hpo, hex,
            hso, create_job, emptyJobs, freshEntry, get_job_status,
            set_job_status_self, applyUpdate, updOpt, startUpdate, save10,
            failUpdate_status, failUpdate_progress, List.chain'_cons,
            progressStep]
        · intro mm hmm
          simp [lifecycleStates, process_job_writes, statesFrom, hpo, hex,
            hso] at hmm
          rcases hmm with hmm | hmm | hmm | hmm <;> subst hmm <;>
            simp [create_job, emptyJobs, freshEntry, get_job_status,
              set_job_status_self, applyUpdate, updOpt, startUpdate,
              save10, failUpdate_status, failUpdate_progress]
        · intro p2 v2 h1 h2 h3 h4 h5
          exact absurd h1 (by simp)
      | ok u =>
        cases hpre : env.preprocessRes with
        | error e =>
          refine ⟨?_, ?_, ?_⟩
          · simp [lifecycleStates, process_job_writes, statesFrom, hpo,
              hex, hso, hpre, create_job, emptyJobs, freshEntry,
              get_job_status, set_job_status_self, applyUpdate, updOpt,
              startUpdate, save10, pre20, failUpdate_status,
              failUpdate_progress, List.chain'_cons, progressStep]
          · intro mm hmm
            simp [lifecycleStates, process_job_writes, statesFrom, hpo,
              hex, hso, hpre] at hmm
            rcases hmm with hmm | hmm | hmm | hmm | hmm <;> subst hmm <;>
              simp [create_job, emptyJobs, freshEntry, get_job_status,
                set_job_status_self, applyUpdate, updOpt, startUpdate,
                save10, pre20, failUpdate_status, failUpdate_progress]
          · intro p2 v2 h1 h2 h3 h4 h5
            exact absurd h2 (by simp)
        | ok p =>
          cases hvec : env.vectorizeRes with
          | error e =>
            refine ⟨?_, ?_, ?_⟩
            · simp [lifecycleStates, process_job_writes, statesFrom, hpo,
                hex, hso, hpre, hvec, create_job, emptyJobs, freshEntry,
                get_job_status, set_job_status_self, applyUpdate, updOpt,
                startUpdate, save10, pre20, pre40, vec50,
                failUpdate_status, failUpdate_progress, List.chain'_cons,
                progressStep]
            · intro mm hmm
              simp [lifecycleStates, process_job_writes, statesFrom, hpo,
                hex, hso, hpre, hvec] at hmm
              rcases hmm with hmm | hmm | hmm | hmm | hmm | hmm | hmm <;>
                subst hmm <;>
                simp [create_job, emptyJobs, freshEntry, get_job_status,
                  set_job_status_self, applyUpdate, updOpt, startUpdate,
                  save10, pre20, pre40, vec50, failUpdate_status,
                  failUpdate_progress]
            · intro p2 v2 h1 h2 h3 h4 h5
              exact absurd h3 (by simp)
          | ok v =>
            refine ⟨?_, ?_, ?_⟩
            · simp [lifecycleStates, process_job_writes, statesFrom, hpo,
                hex, hso, hpre, hvec, create_job, emptyJobs, freshEntry,
                get_job_status, set_job_status_self, applyUpdate, updOpt,
                startUpdate, save10, pre20, pre40, vec50, vec80, fin90,
                completeUpdate, List.chain'_cons, progressStep]
            · intro mm hmm
              simp [lifecycleStates, process_job_writes, statesFrom, hpo,
                hex, hso, hpre, hvec] at hmm
              rcases hmm with hmm | hmm | hmm | hmm | hmm | hmm | hmm |
                hmm | hmm <;> subst hmm <;>
                simp [create_job, emptyJobs, freshEntry, get_job_status,
                  set_job_status_self, applyUpdate, updOpt, startUpdate,
                  save10, pre20, pre40, vec50, vec80, fin90,
                  completeUpdate]
            · intro p2 v2 h1 h2 h3 h4 h5
              simp [lifecycleStates, process_job_writes, statesFrom, hpo,
                hex, hso, hpre, hvec, create_job, emptyJobs, freshEntry,
                get_job_status, set_job_status_self, applyUpdate, updOpt,
                startUpdate, save10, pre20, pre40, vec50, vec80, fin90,
                completeUpdate]

/-- Witness for C4 (amended): in the fully successful concrete lifecycle
the observed progress values are exactly the checkpoint sequence. -/
theorem progress_monotone_amended_witness :
    (lifecycleStates okEnv "j1" "logo.png" 0).map
        (fun mm => (get_job_status mm "j1").map JobEntry.progress)
      = [some 0, some 5, some 10, some 20, some 40, some 50, some 80,
         some 90, some 100] :=
  (progress_monotone_amended okEnv "j1" "logo.png" 0).2.2
    { preprocessed_path := "p.png", original_format := "png",
      original_size := (5, 5), background_removed := false }
    { svg := "s", eps := "e", pdf := "p" }
    rfl rfl rfl rfl rfl

/-- One mutation of the status store: a `create_job` or a raw
`set_job_status` call. -/
inductive JobOp where
  | createOp (id original_filename : String) : JobOp
  | setOp (id : String) (u : JobUpdate) : JobOp

/-- The id an operation touches. -/
def opId : JobOp → String
  | .createOp id _ => id
  | .setOp id _ => id

/-- Run a sequence of store operations, one clock tick per operation. -/
def runOps : JobMap → Nat → List JobOp → JobMap
  | m, _, [] => m
  | m, t, .createOp id f :: ops => runOps (create_job id f m t) (t + 1) ops
  | m, t, .setOp id u :: ops =>
    runOps (set_job_status m id u t) (t + 1) ops

lemma set_job_status_eq_none_iff (m : JobMap) (job_id id : String)
    (u : JobUpdate) (t : Nat) :
    set_job_status m job_id u t id = none ↔ (id ≠ job_id ∧ m id = none) := by
  by_cases h : id = job_id <;> simp [set_job_status, h]

lemma runOps_eq_none_iff :
    ∀ (ops : List JobOp) (m : JobMap) (t : Nat) (id : String),
      runOps m t ops id = none ↔ (m id = none ∧ id ∉ ops.map opId)
  | [], m, t, id => by simp [runOps]
  | .createOp i f :: ops, m, t, id => by
    rw [runOps, runOps_eq_none_iff ops]
    unfold create_job
    rw [set_job_status_eq_none_iff]
    simp [opId, eq_comm, and_assoc, and_left_comm]
  | .setOp i u :: ops, m, t, id => by
    rw [runOps, runOps_eq_none_iff ops, set_job_status_eq_none_iff]
    simp [opId, eq_comm, and_assoc, and_left_comm]

/-- C9: `get_job_status` returns `none` exactly for ids never touched by a
`create_job` or `set_job_status`; `set_job_status` on an unknown id does
not fail but first installs the default entry (status `queued`, progress
0, stage `Initializing...`, `created_at`/`updated_at` stamped) and then
applies the requested updates; and `process_job` on a never-created id
(once its service constructors have run) likewise ends with a status
entry present for that id. -/
theorem job_status_store_spec :
    (∀ (ops : List JobOp) (t0 : Nat) (id : String),
      get_job_status (runOps emptyJobs t0 ops) id = none ↔
        id ∉ ops.map opId)
    ∧ (∀ (m : JobMap) (id : String) (u : JobUpdate) (t : Nat),
        get_job_status m id = none →
        get_job_status (set_job_status m id u t) id
          = some (applyUpdate (freshEntry id t) u t))
    ∧ (∀ (env : PJEnv) (id : String) (m : JobMap) (t0 : Nat),
        get_job_status m id = none → env.potraceInstalled = true →
        (get_job_status (process_job env id m t0).2 id).isSome = true) := by
  refine ⟨?_, ?_, ?_⟩
  · intro ops t0 id
    rw [get_job_status, runOps_eq_none_iff]
    simp [emptyJobs]
  · intro m id u t hm
    rw [get_job_status] at hm
    rw [get_job_status, set_job_status_self, hm]
    rfl
  · intro env id m t0 hm hpo
    cases hex : env.inputExists with
    | false =>
      simp [process_job, hpo, hex, get_job_status, set_job_status_self]
    | true =>
      cases hso : env.saveOriginal with
      | error e =>
        simp [process_job, hpo, hex, hso, get_job_status,
          set_job_status_self]
      | ok u =>
        cases hpre : env.preprocessRes with
        | error e =>
          simp [process_job, hpo, hex, hso, hpre, get_job_status,
            set_job_status_self]
        | ok p =>
          cases hvec : env.vectorizeRes with
          | error e =>
            simp [process_job, hpo, hex, hso, hpre, hvec, get_job_status,
              set_job_status_self]
          | ok v =>
            simp [process_job, hpo, hex, hso, hpre, hvec, get_job_status,
              set_job_status_self]

/-- Witness for C9: after one `create_job` for `j1`, the store answers for
`j1` but not for `j2`; a raw `set_job_status` on the unknown id `j3`
creates the defaulted-and-updated entry. -/
theorem job_status_store_spec_witness :
    (get_job_status
        (runOps emptyJobs 0 [.createOp "j1" "logo.png"]) "j2" = none)
    ∧ (get_job_status
        (set_job_status emptyJobs "j3" { progress := some 7 } 4) "j3"
      = some (applyUpdate (freshEntry "j3" 4) { progress := some 7 } 4)) :=
  ⟨(job_status_store_spec.1 [.createOp "j1" "logo.png"] 0 "j2").mpr
      (by decide),
    job_status_store_spec.2.1 emptyJobs "j3" { progress := some 7 } 4 rfl⟩

end VectorHelper
